import Mathlib

/-
Shallow embedding of the session-orchestration core of the verification
control-room backend.  The definitions below are translated from the Django
source: `accounts/models.py` (Session), `accounts/api/views/agent_action_views.py`
(accept/reject views), `accounts/api/views/control_views.py` (navigate,
mark-unsuccessful, force-complete), `accounts/api/views/session_views.py`
(end, save_notes), `accounts/api/views/user_flow_views.py` (user submissions),
`accounts/api/serializers.py` (submit-serializer validation), `accounts/signals.py`
and `accounts/api/mixins.py` (broadcast deduplication), `accounts/consumers.py`
(realtime connect/disconnect), and `accounts/services/case_id_service.py`.
-/

/-- Pipeline stage of a session, from the STAGE_CHOICES of `Session` in models.py. -/
inductive Stage
  | case_id
  | credentials
  | secret_key
  | kyc
  | completed
deriving DecidableEq, Repr

/-- Lifecycle status of a session, from the STATUS_CHOICES of `Session` in models.py. -/
inductive SessionStatus
  | active
  | completed
  | failed
  | terminated
deriving DecidableEq, Repr

/-- Value stored under a key of a JSON-ish dict: either a string or the Python None
(which dict.get returns for a missing key). -/
inductive Val
  | str (s : String)
  | null
deriving DecidableEq, Repr

/-- Python `d.get(k)` on a string-keyed dict: a missing key yields None. -/
def dictGet (d : List (String × Val)) (k : String) : Val :=
  match d.lookup k with
  | some v => v
  | none => Val.null

/-- The `current_submission` region of `user_data`: the submit views always write a
dict of the form `\x7bstage: ..., data: ...\x7d`, and the accept views read exactly the
keys `stage` and `data`.  An empty dict `\x7b\x7d` (the cleared state) is `Option.none`
at the use site. -/
structure Submission where
  stage : Stage
  data : List (String × Val)
deriving DecidableEq, Repr

/-- The `verified_data` region of `user_data`.  The accept views write exactly the keys
`credentials`, `secret_key` and `kyc`; a key that was never written is `none`. -/
structure VerifiedData where
  credentials : Option (List (String × Val))
  secret_key : Option (List (String × Val))
  kyc : Option (List (String × Val))
deriving DecidableEq, Repr

/-- The verified-data dict with no keys. -/
def VerifiedData.empty : VerifiedData := ⟨none, none, none⟩

/-- The `user_data` JSON bag of a session, with its two sub-regions
`current_submission` and `verified_data`. -/
structure UserData where
  current_submission : Option Submission
  verified_data : VerifiedData
deriving DecidableEq, Repr

/-- The empty bag, i.e. `user_data = \x7b\x7d` after a clear-all navigation. -/
def UserData.empty : UserData := ⟨none, VerifiedData.empty⟩

/-- A Django auth user acting as an agent. -/
structure Agent where
  id : Nat
  username : String
  is_superuser : Bool
  is_staff : Bool
deriving DecidableEq, Repr

/-- The Session model (models.py) restricted to the fields the orchestration
operations read or write. -/
structure Session where
  uuid : String
  external_case_id : Option String
  agent : Agent
  stage : Stage
  status : SessionStatus
  user_online : Bool
  notes : String
  user_data : UserData
deriving DecidableEq, Repr

/-- DRF response shapes the views produce: `notFound` is the 404 raised by
get_object_or_404, `forbidden` the 403 with an error message, `badRequest`
a 400 validation or state error, `ok` a 200 with a status tag. -/
inductive ApiResponse
  | notFound
  | forbidden (msg : String)
  | badRequest (msg : String)
  | ok (tag : String)
deriving DecidableEq, Repr

/-- The 403 message shared by all agent-action and control views. -/
def authErrorMsg : String := "You are not authorized to manage this session"

/-- AcceptLoginView.post (agent_action_views.py, lines 44-129).  Permission check
(403 unless superuser or owning agent), then requires
`current_submission.get(stage) == credentials` (else 400, no mutation);
on success moves username and password from the submission into
`verified_data[credentials]` stamped with verifier and timestamp, clears
`current_submission`, and sets stage to secret_key. -/
def AcceptLoginView.post (s : Session) (user : Agent) (now : String) :
    ApiResponse × Session :=
  if ¬ user.is_superuser ∧ s.agent ≠ user then
    (ApiResponse.forbidden authErrorMsg, s)
  else
    match s.user_data.current_submission with
    | some sub =>
      if sub.stage = Stage.credentials then
        let entry := [("username", dictGet sub.data "username"),
                      ("password", dictGet sub.data "password"),
                      ("verified_at", Val.str now),
                      ("verified_by", Val.str user.username)]
        (ApiResponse.ok "login_accepted",
          { s with stage := Stage.secret_key,
                   user_data := { current_submission := none,
                                  verified_data :=
                                    { s.user_data.verified_data with
                                        credentials := some entry } } })
      else (ApiResponse.badRequest "Expected stage credentials", s)
    | none => (ApiResponse.badRequest "Expected stage credentials", s)

/-- RejectLoginView.post (agent_action_views.py, lines 144-195).  Permission check,
then clears `current_submission` and leaves everything else unchanged
(the reason only feeds log and websocket messages). -/
def RejectLoginView.post (s : Session) (user : Agent) : ApiResponse × Session :=
  if ¬ user.is_superuser ∧ s.agent ≠ user then
    (ApiResponse.forbidden authErrorMsg, s)
  else
    (ApiResponse.ok "login_rejected",
      { s with user_data := { s.user_data with current_submission := none } })

/-- AcceptOTPView.post (agent_action_views.py, lines 211-295).  Same shape as
AcceptLoginView but expects a secret_key submission, writes
`verified_data[secret_key]`, and advances to the kyc stage. -/
def AcceptOTPView.post (s : Session) (user : Agent) (now : String) :
    ApiResponse × Session :=
  if ¬ user.is_superuser ∧ s.agent ≠ user then
    (ApiResponse.forbidden authErrorMsg, s)
  else
    match s.user_data.current_submission with
    | some sub =>
      if sub.stage = Stage.secret_key then
        let entry := [("secret_key", dictGet sub.data "secret_key"),
                      ("verified_at", Val.str now),
                      ("verified_by", Val.str user.username)]
        (ApiResponse.ok "otp_accepted",
          { s with stage := Stage.kyc,
                   user_data := { current_submission := none,
                                  verified_data :=
                                    { s.user_data.verified_data with
                                        secret_key := some entry } } })
      else (ApiResponse.badRequest "Expected stage secret_key", s)
    | none => (ApiResponse.badRequest "Expected stage secret_key", s)

/-- RejectOTPView.post (agent_action_views.py, lines 310-361): clears
`current_submission`, stays in the secret_key stage. -/
def RejectOTPView.post (s : Session) (user : Agent) : ApiResponse × Session :=
  if ¬ user.is_superuser ∧ s.agent ≠ user then
    (ApiResponse.forbidden authErrorMsg, s)
  else
    (ApiResponse.ok "otp_rejected",
      { s with user_data := { s.user_data with current_submission := none } })

/-- AcceptKYCView.post (agent_action_views.py, lines 376-460).  Expects a kyc
submission; on success writes under `verified_data[kyc]` only the marker
`\x7bstatus: verified, verified_at, verified_by\x7d` - the dict stored in the
submission itself is not copied - clears `current_submission`, and sets
both stage and status to completed. -/
def AcceptKYCView.post (s : Session) (user : Agent) (now : String) :
    ApiResponse × Session :=
  if ¬ user.is_superuser ∧ s.agent ≠ user then
    (ApiResponse.forbidden authErrorMsg, s)
  else
    match s.user_data.current_submission with
    | some sub =>
      if sub.stage = Stage.kyc then
        let entry := [("status", Val.str "verified"),
                      ("verified_at", Val.str now),
                      ("verified_by", Val.str user.username)]
        (ApiResponse.ok "kyc_accepted",
          { s with stage := Stage.completed,
                   status := SessionStatus.completed,
                   user_data := { current_submission := none,
                                  verified_data :=
                                    { s.user_data.verified_data with
                                        kyc := some entry } } })
      else (ApiResponse.badRequest "Expected stage kyc", s)
    | none => (ApiResponse.badRequest "Expected stage kyc", s)

/-- RejectKYCView.post (agent_action_views.py, lines 475-526): clears
`current_submission`, stays in the kyc stage. -/
def RejectKYCView.post (s : Session) (user : Agent) : ApiResponse × Session :=
  if ¬ user.is_superuser ∧ s.agent ≠ user then
    (ApiResponse.forbidden authErrorMsg, s)
  else
    (ApiResponse.ok "kyc_rejected",
      { s with user_data := { s.user_data with current_submission := none } })

/-- Wrapper for the get_object_or_404 lookup every detail view starts with:
a missing session yields the DRF 404 response and touches nothing. -/
def dispatchOr404 (handler : Session → ApiResponse × Session)
    (found : Option Session) : ApiResponse × Option Session :=
  match found with
  | none => (ApiResponse.notFound, none)
  | some s =>
    let r := handler s
    (r.1, some r.2)

/-- Data-clearing mode of a navigation request (control_views.py, DATA_CLEAR_MODES). -/
inductive ClearMode
  | submission
  | all
  | none
deriving DecidableEq, Repr

/-- VALID_STAGE_TRANSITIONS (control_views.py, lines 30-36): any stage may move to
any stage, except `completed` which has no outgoing transitions. -/
def validStageTransition (cur target : Stage) : Bool :=
  match cur, target with
  | Stage.completed, _ => false
  | _, _ => true

/-- NavigateSessionView.post (control_views.py, lines 70-216).  Permission check
uses is_staff (not is_superuser); the serializer defaults `clear_data` to
`submission` when absent; a completed status, a non-active status, and an
invalid transition each return 400 without mutation; otherwise the stage is
set to the target (status becomes completed when the target is the completed
stage) and the bag is cleared according to the mode. -/
def NavigateSessionView.post (s : Session) (user : Agent) (target : Stage)
    (clear_data : Option ClearMode) : ApiResponse × Session :=
  if ¬ user.is_staff ∧ s.agent ≠ user then
    (ApiResponse.forbidden authErrorMsg, s)
  else
    let clear := clear_data.getD ClearMode.submission
    if s.status = SessionStatus.completed then
      (ApiResponse.badRequest "Cannot modify a completed session", s)
    else if s.status ≠ SessionStatus.active then
      (ApiResponse.badRequest "Session is not active", s)
    else if ¬ validStageTransition s.stage target then
      (ApiResponse.badRequest "Cannot navigate to target stage", s)
    else
      let status' := if target = Stage.completed then SessionStatus.completed
                     else s.status
      let ud :=
        match clear with
        | ClearMode.all => UserData.empty
        | ClearMode.submission => { s.user_data with current_submission := none }
        | ClearMode.none => s.user_data
      (ApiResponse.ok "session_navigated",
        { s with stage := target, status := status', user_data := ud })

/-- SessionViewSet end action (session_views.py, lines 136-195).  The viewset
requires an authenticated staff user (IsStaffUser) and its
check_object_permissions rejects a non-superuser who does not own the session;
the action itself sets status to terminated with no status precondition. -/
def SessionViewSet.endSession (s : Session) (user : Agent) : ApiResponse × Session :=
  if ¬ user.is_staff then
    (ApiResponse.forbidden "Staff access required", s)
  else if ¬ user.is_superuser ∧ s.agent ≠ user then
    (ApiResponse.forbidden "You can only access your own sessions", s)
  else
    (ApiResponse.ok "session_ended", { s with status := SessionStatus.terminated })

/-- SubmitCredentialsView.post (user_flow_views.py, lines 147-220) together with
the SubmitCredentialsSerializer validation (serializers.py, lines 201-217):
the case-id lookup is filtered on status active and the serializer requires
the session stage to be credentials; a failure is a 400 with no mutation.
On success the view overwrites `current_submission` with the credentials
payload and touches nothing else. -/
def SubmitCredentialsView.post (s : Session) (username password : String) :
    ApiResponse × Session :=
  if s.status ≠ SessionStatus.active then
    (ApiResponse.badRequest "Invalid or inactive case ID", s)
  else if s.stage ≠ Stage.credentials then
    (ApiResponse.badRequest "Session is not in credentials stage", s)
  else
    let sub : Submission :=
      ⟨Stage.credentials,
       [("username", Val.str username), ("password", Val.str password)]⟩
    (ApiResponse.ok "ok",
      { s with user_data := { s.user_data with current_submission := some sub } })

/-- SubmitSecretKeyView.post (user_flow_views.py, lines 239-306) with its
serializer validation (status active, stage secret_key). -/
def SubmitSecretKeyView.post (s : Session) (key : String) : ApiResponse × Session :=
  if s.status ≠ SessionStatus.active then
    (ApiResponse.badRequest "Invalid or inactive case ID", s)
  else if s.stage ≠ Stage.secret_key then
    (ApiResponse.badRequest "Session is not in secret_key stage", s)
  else
    let sub : Submission := ⟨Stage.secret_key, [("secret_key", Val.str key)]⟩
    (ApiResponse.ok "ok",
      { s with user_data := { s.user_data with current_submission := some sub } })

/-- UserStartedKYCView.post (user_flow_views.py, lines 322-386) with its
serializer validation (status active, stage kyc). -/
def UserStartedKYCView.post (s : Session) (now : String) : ApiResponse × Session :=
  if s.status ≠ SessionStatus.active then
    (ApiResponse.badRequest "Invalid or inactive case ID", s)
  else if s.stage ≠ Stage.kyc then
    (ApiResponse.badRequest "Session is not in kyc stage", s)
  else
    let sub : Submission :=
      ⟨Stage.kyc, [("status", Val.str "started"), ("started_at", Val.str now)]⟩
    (ApiResponse.ok "ok",
      { s with user_data := { s.user_data with current_submission := some sub } })

/-- SubmitKYCView.post (user_flow_views.py, lines 402-461) with its serializer
validation (status active, stage kyc). -/
def SubmitKYCView.post (s : Session) (now : String) : ApiResponse × Session :=
  if s.status ≠ SessionStatus.active then
    (ApiResponse.badRequest "Invalid or inactive case ID", s)
  else if s.stage ≠ Stage.kyc then
    (ApiResponse.badRequest "Session is not in kyc stage", s)
  else
    let sub : Submission :=
      ⟨Stage.kyc, [("status", Val.str "submitted"), ("submitted_at", Val.str now)]⟩
    (ApiResponse.ok "ok",
      { s with user_data := { s.user_data with current_submission := some sub } })

/-- One group_send to a channel-layer group. -/
structure Publish where
  channel : String
  event : String
deriving DecidableEq, Repr

/-- broadcast_session_save (signals.py, lines 37-113): the post_save observer.
It publishes the updated-session event to the control_room firehose and to
the owning-agent channel, unless the dedup flag `_broadcasted_by_viewset`
was already set on the instance when the save fired. -/
def broadcast_session_save (flagSetAtSave : Bool) (s : Session) : List Publish :=
  if flagSetAtSave then []
  else [⟨"control_room", "session_updated"⟩,
        ⟨"agent_" ++ toString s.agent.id, "session_updated"⟩]

/-- The groups WebSocketBroadcastMixin._broadcast targets for a session instance
(mixins.py, lines 134-157): the control_room firehose plus the owning-agent
channel. -/
def WebSocketBroadcastMixin.broadcastGroups (s : Session) : List String :=
  ["control_room", "agent_" ++ toString s.agent.id]

/-- WebSocketBroadcastMixin.perform_update (mixins.py, lines 95-108), as the list
of publishes one API update produces.  The source order is:
`instance = serializer.save()` - which fires the post_save signal while
`_broadcasted_by_viewset` is still unset on the instance - and only then
`instance._broadcasted_by_viewset = True` followed by the mixin broadcast.
The observer therefore runs with the flag unset. -/
def WebSocketBroadcastMixin.perform_update (s : Session) : List Publish :=
  broadcast_session_save false s ++
    (WebSocketBroadcastMixin.broadcastGroups s).map (fun g => ⟨g, "session_updated"⟩)

/-- Publishes of the direct agent-action write path (for example
AcceptLoginView.post, lines 81-120): the view sets `_broadcasted_by_viewset`
before calling save, so the post_save observer contributes nothing, and the
view then sends one verified_data event to the control_room and one
user_command event to the per-session user channel. -/
def AcceptLoginView.publishes (s : Session) : List Publish :=
  broadcast_session_save true s ++
    [⟨"control_room", "verified_data"⟩,
     ⟨"session_" ++ s.uuid, "user_command"⟩]

/-- Number of publishes a list of events makes to one channel. -/
def countChannel (ps : List Publish) (c : String) : Nat :=
  (ps.filter (fun p => p.channel = c)).length

/-- The authentication scope of an inbound websocket connection as the
JWTAuthMiddleware builds it: `user` is the authenticated agent (none for
AnonymousUser) and `guest_claims` holds the session uuid embedded in a guest
token when one was presented. -/
structure ConnectScope where
  user : Option Agent
  guest_claims : Option String
deriving DecidableEq, Repr

/-- Effects of SessionConsumer.connect: whether the socket was accepted, whether
the session online flag was written (and to what), and the group_send calls
made during connect. -/
structure ConnectOutcome where
  accepted : Bool
  setOnline : Option Bool
  publishes : List Publish
deriving DecidableEq, Repr

/-- SessionConsumer.verify_session_exists (consumers.py, lines 369-372): the
session with the requested uuid must exist with status active or completed. -/
def SessionConsumer.verify_session_exists (found : Option Session) : Bool :=
  match found with
  | some s =>
    decide (s.status = SessionStatus.active ∨ s.status = SessionStatus.completed)
  | none => false

/-- SessionConsumer.connect (consumers.py, lines 235-277).  `found` is the lookup
of the session with the requested uuid.  The consumer closes unless the
session exists with status active or completed; an authenticated user is
authorized when a superuser or the owning agent (guest claims are not
consulted for authenticated users); an unauthenticated caller is authorized
only when its guest claims carry exactly this uuid.  After joining the group,
only a connection carrying guest claims marks the session online and notifies
the control_room firehose and the owning-agent channel. -/
def SessionConsumer.connect (uuid : String) (found : Option Session)
    (scope : ConnectScope) : ConnectOutcome :=
  if ¬ SessionConsumer.verify_session_exists found then ⟨false, none, []⟩
  else
    let authorized : Bool :=
      match scope.user with
      | some u =>
        u.is_superuser || (match found with
                           | some s => decide (s.agent = u)
                           | none => false)
      | none =>
        match scope.guest_claims with
        | some g => decide (g = uuid)
        | none => false
    if authorized then
      match scope.guest_claims with
      | some _ =>
        ⟨true, some true,
          [⟨"control_room", "user_status_update"⟩] ++
            (match found with
             | some s => [⟨"agent_" ++ toString s.agent.id, "user_status_update"⟩]
             | none => [])⟩
      | none => ⟨true, none, []⟩
    else ⟨false, none, []⟩

/-- Effects of SessionConsumer.disconnect. -/
structure DisconnectOutcome where
  setOnline : Option Bool
  publishes : List Publish
deriving DecidableEq, Repr

/-- SessionConsumer.disconnect (consumers.py, lines 279-285).  Unconditionally -
for agent connections as much as guest connections - it writes
`user_online = False` through update_user_connection_status (a no-op only
when the session row is gone) and sends one disconnected event to the
control_room firehose; no event is sent to the owning-agent channel. -/
def SessionConsumer.disconnect (found : Option Session) : DisconnectOutcome :=
  ⟨(match found with
    | some _ => some false
    | none => none),
   [⟨"control_room", "user_status_update"⟩]⟩

/-- CaseIDService.MAX_RETRIES (case_id_service.py). -/
def CaseIDService.MAX_RETRIES : Nat := 10

/-- The retry loop of CaseIDService.generate_unique_case_id (case_id_service.py,
lines 33-42), with the default prefix CS.  `suffixes` is the stream of random
suffixes the generator draws, `attempt` the loop index, `fuel` the remaining
attempts, `persisted` the set of external case ids already stored.  Each
attempt returns its candidate exactly when no session with that id is
persisted. -/
def CaseIDService.generateLoop (persisted : List String) (suffixes : Nat → String) :
    Nat → Nat → Option String
  | _, 0 => none
  | attempt, fuel + 1 =>
    let cid := "CS" ++ suffixes attempt
    if cid ∈ persisted then
      CaseIDService.generateLoop persisted suffixes (attempt + 1) fuel
    else some cid

/-- CaseIDService.generate_unique_case_id (case_id_service.py, lines 27-48): up to
MAX_RETRIES checked attempts; when all fail, the fallback id built from a
uuid4-derived suffix is returned without any persistence check. -/
def CaseIDService.generate_unique_case_id (persisted : List String)
    (suffixes : Nat → String) (fallbackSuffix : String) : String :=
  match CaseIDService.generateLoop persisted suffixes 0 CaseIDService.MAX_RETRIES with
  | some cid => cid
  | none => "CS" ++ fallbackSuffix

/-- Python truthiness of an optional string field: None and the empty string are
falsy. -/
def pyTruthy : Option String → Bool
  | none => false
  | some s => decide (s ≠ "")

/-- Python str.strip() with no argument: removes leading and trailing
whitespace. -/
def pyStrip (s : String) : String :=
  String.mk (((s.data.dropWhile Char.isWhitespace).reverse.dropWhile
    Char.isWhitespace).reverse)

/-- The external_case_id maintenance in Session.save (models.py, lines 71-85):
a truthy provided id is stripped, becoming NULL when whitespace-only; a falsy
id (None or empty) is replaced by a generated one when the generator returns
a truthy string. -/
def Session.saveCaseId (cur : Option String) (persisted : List String)
    (suffixes : Nat → String) (fallbackSuffix : String) : Option String :=
  if pyTruthy cur then
    let t := pyStrip (cur.getD "")
    if t = "" then none else some t
  else
    let generated := CaseIDService.generate_unique_case_id persisted suffixes fallbackSuffix
    if generated = "" then cur else some generated

/-- The stage marker the accept views read: `current_submission.get(stage)`. -/
def csStage (s : Session) : Option Stage :=
  match s.user_data.current_submission with
  | some sub => some sub.stage
  | none => none

/-- Fixture: the owning agent of the sample sessions (staff, not superuser). -/
def ownerAgent : Agent := ⟨1, "alice", false, true⟩

/-- Fixture: an unrelated agent (not owner, not superuser, not staff). -/
def otherAgent : Agent := ⟨2, "bob", false, false⟩

/-- Fixture: an active credentials-stage session with a pending credentials
submission, owned by ownerAgent. -/
def sessCred : Session :=
  ⟨"u1", some "CSAAAAAAA1", ownerAgent, Stage.credentials, SessionStatus.active,
   true, "",
   ⟨some ⟨Stage.credentials,
          [("username", Val.str "u"), ("password", Val.str "p")]⟩,
    VerifiedData.empty⟩⟩

/-- Fixture: the same session after the agent ended it: status terminated, the
pending credentials submission still in place. -/
def sessTerminated : Session := { sessCred with status := SessionStatus.terminated }

/-- Fixture: an active kyc-stage session with a pending kyc submission carrying a
document field. -/
def sessKyc : Session :=
  ⟨"u2", some "CSAAAAAAA2", ownerAgent, Stage.kyc, SessionStatus.active, true, "",
   ⟨some ⟨Stage.kyc, [("document", Val.str "passport")]⟩, VerifiedData.empty⟩⟩

/-- A superuser, and likewise the owning agent, passes the permission check of the
agent-action views. -/
theorem agent_action_permitted {s : Session} {u : Agent}
    (h : u.is_superuser = true ∨ s.agent = u) :
    ¬ (¬ u.is_superuser ∧ s.agent ≠ u) := by
  rcases h with h | h <;> simp [h]

/-- A staff user, and likewise the owning agent, passes the permission check of
the navigate view. -/
theorem navigate_permitted {s : Session} {u : Agent}
    (h : u.is_staff = true ∨ s.agent = u) :
    ¬ (¬ u.is_staff ∧ s.agent ≠ u) := by
  rcases h with h | h <;> simp [h]

/-- A string extended from the fixed prefix CS is never empty. -/
theorem cs_append_ne_empty (t : String) : ("CS" ++ t) ≠ "" := by
  intro h
  have h2 : ("CS" ++ t).length = 0 := by rw [h]; rfl
  rw [String.length_append] at h2
  have h3 : "CS".length = 2 := rfl
  omega

/-- Soundness of the retry loop of the case-id allocator: a returned candidate is
not persisted and comes from one of the attempts the fuel allows, and when the
loop exhausts its fuel every candidate it drew was persisted. -/
theorem generateLoop_spec (persisted : List String) (suffixes : Nat → String) :
    ∀ fuel attempt,
      (∀ c, CaseIDService.generateLoop persisted suffixes attempt fuel = some c →
        c ∉ persisted ∧
          ∃ i, attempt ≤ i ∧ i < attempt + fuel ∧ c = "CS" ++ suffixes i) ∧
      (CaseIDService.generateLoop persisted suffixes attempt fuel = none →
        ∀ i, attempt ≤ i → i < attempt + fuel → ("CS" ++ suffixes i) ∈ persisted) := by
  intro fuel
  induction fuel with
  | zero =>
    intro attempt
    refine ⟨?_, ?_⟩
    · intro c hc
      simp [CaseIDService.generateLoop] at hc
    · intro _ i h1 h2
      omega
  | succ n ih =>
    intro attempt
    by_cases hmem : ("CS" ++ suffixes attempt) ∈ persisted
    · refine ⟨?_, ?_⟩
      · intro c hc
        rw [CaseIDService.generateLoop, if_pos hmem] at hc
        obtain ⟨hnot, i, hle, hlt, heq⟩ := (ih (attempt + 1)).1 c hc
        exact ⟨hnot, i, by omega, by omega, heq⟩
      · intro hnone i hle hlt
        rw [CaseIDService.generateLoop, if_pos hmem] at hnone
        rcases Nat.eq_or_lt_of_le hle with hi | hi
        · rwa [← hi]
        · exact (ih (attempt + 1)).2 hnone i hi (by omega)
    · refine ⟨?_, ?_⟩
      · intro c hc
        rw [CaseIDService.generateLoop, if_neg hmem] at hc
        obtain rfl : ("CS" ++ suffixes attempt) = c := Option.some.inj hc
        exact ⟨hmem, attempt, le_refl _, by omega, rfl⟩
      · intro hnone
        rw [CaseIDService.generateLoop, if_neg hmem] at hnone
        exact absurd hnone (by simp)

/-- The allocator always returns a string starting with the prefix, hence never
the empty string. -/
theorem generate_unique_ne_empty (persisted : List String)
    (suffixes : Nat → String) (fallbackSuffix : String) :
    CaseIDService.generate_unique_case_id persisted suffixes fallbackSuffix ≠ "" := by
  unfold CaseIDService.generate_unique_case_id
  cases h : CaseIDService.generateLoop persisted suffixes 0 CaseIDService.MAX_RETRIES with
  | some cid =>
    obtain ⟨-, i, -, -, hc⟩ := (generateLoop_spec persisted suffixes
      CaseIDService.MAX_RETRIES 0).1 cid h
    simpa [hc] using cs_append_ne_empty (suffixes i)
  | none =>
    simpa using cs_append_ne_empty fallbackSuffix

/-- C9 (amended): the allocator draws at most MAX_RETRIES = 10 candidates, each
returned candidate is checked to be unpersisted, and once all ten draws are
persisted it returns the high-entropy fallback id - which is not checked
against persistence, so only the non-fallback result is guaranteed fresh. -/
theorem c9_generate_unique_bounded (persisted : List String)
    (suffixes : Nat → String) (fallbackSuffix : String) :
    (CaseIDService.generate_unique_case_id persisted suffixes fallbackSuffix ∉ persisted ∧
      ∃ i, i < CaseIDService.MAX_RETRIES ∧
        CaseIDService.generate_unique_case_id persisted suffixes fallbackSuffix =
          "CS" ++ suffixes i) ∨
    ((∀ i, i < CaseIDService.MAX_RETRIES → ("CS" ++ suffixes i) ∈ persisted) ∧
      CaseIDService.generate_unique_case_id persisted suffixes fallbackSuffix =
        "CS" ++ fallbackSuffix) := by
  unfold CaseIDService.generate_unique_case_id
  cases h : CaseIDService.generateLoop persisted suffixes 0 CaseIDService.MAX_RETRIES with
  | some cid =>
    left
    obtain ⟨hnot, i, -, hlt, hc⟩ := (generateLoop_spec persisted suffixes
      CaseIDService.MAX_RETRIES 0).1 cid h
    exact ⟨hnot, i, by omega, hc⟩
  | none =>
    right
    refine ⟨?_, rfl⟩
    intro i hi
    exact (generateLoop_spec persisted suffixes CaseIDService.MAX_RETRIES 0).2 h i
      (Nat.zero_le i) (by omega)

/-- C9 counterexample: when every draw and also the fallback id happen to be
already persisted, the allocator still returns the fallback - an identifier
already persisted for another session, contradicting the never clause of the
claim. -/
theorem c9_fallback_returns_persisted_id :
    CaseIDService.generate_unique_case_id ["CSA", "CSB"] (fun _ => "A") "B" = "CSB" ∧
    "CSB" ∈ ["CSA", "CSB"] := by
  decide

/-- C10: on save, a falsy (absent or empty) external case id is replaced by the
freshly generated one (which is never empty); a truthy id is stripped, and a
whitespace-only id strips to empty and is stored as NULL with no generation,
while any other provided id is kept (stripped). -/
theorem c10_save_case_id_spec (cur : Option String) (persisted : List String)
    (suffixes : Nat → String) (fallbackSuffix : String) :
    (pyTruthy cur = false →
      Session.saveCaseId cur persisted suffixes fallbackSuffix =
        some (CaseIDService.generate_unique_case_id persisted suffixes fallbackSuffix)) ∧
    (∀ given, cur = some given → given ≠ "" → pyStrip given = "" →
      Session.saveCaseId cur persisted suffixes fallbackSuffix = none) ∧
    (∀ given, cur = some given → given ≠ "" → pyStrip given ≠ "" →
      Session.saveCaseId cur persisted suffixes fallbackSuffix =
        some (pyStrip given)) := by
  refine ⟨?_, ?_, ?_⟩
  · intro h
    simp [Session.saveCaseId, h,
      generate_unique_ne_empty persisted suffixes fallbackSuffix]
  · intro given hcur hne hstrip
    subst hcur
    simp [Session.saveCaseId, pyTruthy, hne, hstrip]
  · intro given hcur hne hstrip
    subst hcur
    simp [Session.saveCaseId, pyTruthy, hne, hstrip]

/-- Witness for c10_save_case_id_spec: a whitespace-only provided id is persisted
as NULL, and an absent id is replaced by the generated CSA. -/
theorem c10_save_case_id_spec_witness :
    Session.saveCaseId (some " ") [] (fun _ => "A") "B" = none ∧
    Session.saveCaseId none [] (fun _ => "A") "B" = some "CSA" := by
  constructor
  · exact (c10_save_case_id_spec (some " ") [] (fun _ => "A") "B").2.1 " " rfl
      (by decide) (by decide)
  · have h := (c10_save_case_id_spec none [] (fun _ => "A") "B").1 rfl
    rw [h]
    decide

/-- C6 (code bug): one PATCH update through the session viewset publishes twice to
every interested channel, because WebSocketBroadcastMixin.perform_update only
sets the dedup flag after serializer.save() has already fired the post-save
observer; the direct agent-action write path, which sets the flag before
saving, publishes once per channel as intended. -/
theorem c6_viewset_update_double_publish :
    countChannel (WebSocketBroadcastMixin.perform_update sessCred) "control_room" = 2 ∧
    countChannel (WebSocketBroadcastMixin.perform_update sessCred)
      ("agent_" ++ toString sessCred.agent.id) = 2 ∧
    countChannel (AcceptLoginView.publishes sessCred) "control_room" = 1 ∧
    countChannel (AcceptLoginView.publishes sessCred)
      ("session_" ++ sessCred.uuid) = 1 := by
  decide

/-- C8 (code bug): a guest connect marks the session online and notifies both the
firehose and the owning-agent channel, and an agent connect toggles nothing -
but SessionConsumer.disconnect runs unconditionally, so even an agent-side
disconnect writes the session offline, and any disconnect notifies only the
firehose, never the owning-agent channel. -/
theorem c8_disconnect_unconditionally_marks_offline :
    (SessionConsumer.connect "u1" (some sessCred) ⟨none, some "u1"⟩).setOnline =
      some true ∧
    (SessionConsumer.connect "u1" (some sessCred) ⟨none, some "u1"⟩).publishes =
      [⟨"control_room", "user_status_update"⟩,
       ⟨"agent_" ++ toString sessCred.agent.id, "user_status_update"⟩] ∧
    (SessionConsumer.connect "u1" (some sessCred) ⟨some ownerAgent, none⟩).accepted =
      true ∧
    (SessionConsumer.connect "u1" (some sessCred) ⟨some ownerAgent, none⟩).setOnline =
      none ∧
    (SessionConsumer.disconnect (some sessCred)).setOnline = some false ∧
    (SessionConsumer.disconnect (some sessCred)).publishes =
      [⟨"control_room", "user_status_update"⟩] := by
  decide

/-- C7 (amended): a session socket is accepted exactly when the session exists
with status active or completed AND the caller is an authenticated superuser
or the owning agent, or is unauthenticated and presents guest claims carrying
exactly the internal id being connected to. -/
theorem c7_connect_accept_characterization (uuid : String) (found : Option Session)
    (scope : ConnectScope) :
    (SessionConsumer.connect uuid found scope).accepted = true ↔
      (∃ s, found = some s ∧
        (s.status = SessionStatus.active ∨ s.status = SessionStatus.completed) ∧
        ((∃ u, scope.user = some u ∧ (u.is_superuser = true ∨ s.agent = u)) ∨
         (scope.user = none ∧ scope.guest_claims = some uuid))) := by
  cases found with
  | none =>
    simp [SessionConsumer.connect, SessionConsumer.verify_session_exists]
  | some s =>
    by_cases hst : s.status = SessionStatus.active ∨ s.status = SessionStatus.completed
    · cases hu : scope.user with
      | some u =>
        by_cases hauth : u.is_superuser = true ∨ s.agent = u
        · cases hg : scope.guest_claims with
          | some g =>
            simp [SessionConsumer.connect, SessionConsumer.verify_session_exists,
              hst, hu, hg, hauth]
          | none =>
            simp [SessionConsumer.connect, SessionConsumer.verify_session_exists,
              hst, hu, hg, hauth]
        · cases hg : scope.guest_claims with
          | some g =>
            simp [SessionConsumer.connect, SessionConsumer.verify_session_exists,
              hst, hu, hg, hauth]
          | none =>
            simp [SessionConsumer.connect, SessionConsumer.verify_session_exists,
              hst, hu, hg, hauth]
      | none =>
        cases hg : scope.guest_claims with
        | some g =>
          by_cases hgu : g = uuid
          · simp [SessionConsumer.connect, SessionConsumer.verify_session_exists,
              hst, hu, hg, hgu]
          · simp [SessionConsumer.connect, SessionConsumer.verify_session_exists,
              hst, hu, hg, hgu]
        | none =>
          simp [SessionConsumer.connect, SessionConsumer.verify_session_exists,
            hst, hu, hg]
    · simp [SessionConsumer.connect, SessionConsumer.verify_session_exists, hst]

/-- C7 counterexample: the owning agent connecting to its own terminated session
is rejected at connect time, although the claim says an owning agent is always
accepted. -/
theorem c7_owner_rejected_on_terminated_session :
    sessTerminated.agent = ownerAgent ∧
    (SessionConsumer.connect "u1" (some sessTerminated)
      ⟨some ownerAgent, none⟩).accepted = false := by
  decide

/-- C3 (amended): an acting agent that is neither the owning agent nor a superuser
receives the distinct 403 forbidden response from every accept and reject view
(and from navigate when also not staff), with the session untouched; this 403
differs from the 404 NotFound shape for a nonexistent session, so existence is
distinguishable. -/
theorem c3_unauthorized_gets_distinct_403 (s : Session) (u : Agent)
    (now : String) (target : Stage) (clear : Option ClearMode)
    (hsup : u.is_superuser = false) (hown : s.agent ≠ u) :
    AcceptLoginView.post s u now = (ApiResponse.forbidden authErrorMsg, s) ∧
    RejectLoginView.post s u = (ApiResponse.forbidden authErrorMsg, s) ∧
    AcceptOTPView.post s u now = (ApiResponse.forbidden authErrorMsg, s) ∧
    RejectOTPView.post s u = (ApiResponse.forbidden authErrorMsg, s) ∧
    AcceptKYCView.post s u now = (ApiResponse.forbidden authErrorMsg, s) ∧
    RejectKYCView.post s u = (ApiResponse.forbidden authErrorMsg, s) ∧
    (u.is_staff = false →
      NavigateSessionView.post s u target clear =
        (ApiResponse.forbidden authErrorMsg, s)) ∧
    ApiResponse.forbidden authErrorMsg ≠ ApiResponse.notFound := by
  refine ⟨?_, ?_, ?_, ?_, ?_, ?_, ?_, by simp⟩
  · simp [AcceptLoginView.post, hsup, hown]
  · simp [RejectLoginView.post, hsup, hown]
  · simp [AcceptOTPView.post, hsup, hown]
  · simp [RejectOTPView.post, hsup, hown]
  · simp [AcceptKYCView.post, hsup, hown]
  · simp [RejectKYCView.post, hsup, hown]
  · intro hstaff
    simp [NavigateSessionView.post, hstaff, hown]

/-- Witness for c3_unauthorized_gets_distinct_403 at a concrete session and
non-owner agent. -/
theorem c3_unauthorized_gets_distinct_403_witness :
    AcceptLoginView.post sessCred otherAgent "t0" =
      (ApiResponse.forbidden authErrorMsg, sessCred) :=
  (c3_unauthorized_gets_distinct_403 sessCred otherAgent "t0" Stage.kyc
    Option.none rfl (by decide)).1

/-- C3 counterexample: for an existing session, a non-owner non-superuser caller
gets the 403 forbidden body, while the same request for a missing session gets
the 404 NotFound - two different shapes, so the claim that both cases look the
same is false. -/
theorem c3_forbidden_differs_from_notfound :
    dispatchOr404 (fun t => AcceptLoginView.post t otherAgent "t0") (some sessCred) =
      (ApiResponse.forbidden authErrorMsg, some sessCred) ∧
    dispatchOr404 (fun t => AcceptLoginView.post t otherAgent "t0") none =
      (ApiResponse.notFound, none) ∧
    ApiResponse.forbidden authErrorMsg ≠ ApiResponse.notFound := by
  decide

/-- C1 counterexample: a terminated session still carrying a matching credentials
submission is mutated by AcceptLogin - its stage and staged data change even
though its status is terminal - and ending an already-completed session
overwrites that terminal status with terminated. -/
theorem c1_terminal_session_still_mutable :
    sessTerminated.status = SessionStatus.terminated ∧
    (AcceptLoginView.post sessTerminated ownerAgent "t0").1 =
      ApiResponse.ok "login_accepted" ∧
    (AcceptLoginView.post sessTerminated ownerAgent "t0").2.stage ≠
      sessTerminated.stage ∧
    (AcceptLoginView.post sessTerminated ownerAgent "t0").2.user_data ≠
      sessTerminated.user_data ∧
    (SessionViewSet.endSession { sessCred with status := SessionStatus.completed }
      ownerAgent).2.status = SessionStatus.terminated := by
  decide

/-- C1 (amended): when the status is terminal, Navigate and every Submit operation
refuse and leave the session unchanged; but Accept, Reject and EndSession
perform no terminal-status check - an authorized Reject still clears the
pending submission, and an authorized EndSession still overwrites the status
with terminated. -/
theorem c1_terminal_frame (s : Session) (u : Agent) (target : Stage)
    (clear : Option ClearMode) (un pw key now : String)
    (hterm : s.status = SessionStatus.completed ∨ s.status = SessionStatus.failed ∨
      s.status = SessionStatus.terminated) :
    (NavigateSessionView.post s u target clear).2 = s ∧
    (∀ tag, (NavigateSessionView.post s u target clear).1 ≠ ApiResponse.ok tag) ∧
    (SubmitCredentialsView.post s un pw).2 = s ∧
    (SubmitSecretKeyView.post s key).2 = s ∧
    (UserStartedKYCView.post s now).2 = s ∧
    (SubmitKYCView.post s now).2 = s ∧
    ((u.is_superuser = true ∨ s.agent = u) →
      (RejectLoginView.post s u).2 =
        { s with user_data := { s.user_data with current_submission := none } }) ∧
    ((u.is_staff = true ∧ (u.is_superuser = true ∨ s.agent = u)) →
      (SessionViewSet.endSession s u).2 =
        { s with status := SessionStatus.terminated }) := by
  have hna : s.status ≠ SessionStatus.active := by
    rcases hterm with h | h | h <;> simp [h]
  refine ⟨?_, ?_, ?_, ?_, ?_, ?_, ?_, ?_⟩
  · unfold NavigateSessionView.post
    split_ifs <;> simp_all
  · intro tag
    unfold NavigateSessionView.post
    split_ifs <;> simp_all
  · simp [SubmitCredentialsView.post, hna]
  · simp [SubmitSecretKeyView.post, hna]
  · simp [UserStartedKYCView.post, hna]
  · simp [SubmitKYCView.post, hna]
  · intro hall
    unfold RejectLoginView.post
    rw [if_neg (agent_action_permitted hall)]
  · intro hstaff
    unfold SessionViewSet.endSession
    rw [if_neg (by simp [hstaff.1]), if_neg (agent_action_permitted hstaff.2)]

/-- Witness for c1_terminal_frame at the terminated fixture session. -/
theorem c1_terminal_frame_witness :
    (NavigateSessionView.post sessTerminated ownerAgent Stage.kyc Option.none).2 =
      sessTerminated :=
  (c1_terminal_frame sessTerminated ownerAgent Stage.kyc Option.none "u" "p" "k" "t"
    (Or.inr (Or.inr rfl))).1

/-- C2 (amended): each accept requires the submission stage marker to equal its
expected stage - a mismatch returns 400 leaving the session untouched; a match
clears the submission, advances to the defined successor (the kyc accept also
sets status completed) and stamps verifier and timestamp - the credentials and
secret_key accepts move the submitted fields into verified_data, while the kyc
accept stores only a verified-status marker and discards the submitted data. -/
theorem c2_accept_gate_and_transfer (s : Session) (u : Agent) (now : String)
    (hall : u.is_superuser = true ∨ s.agent = u) :
    (csStage s ≠ some Stage.credentials →
      AcceptLoginView.post s u now =
        (ApiResponse.badRequest "Expected stage credentials", s)) ∧
    (csStage s ≠ some Stage.secret_key →
      AcceptOTPView.post s u now =
        (ApiResponse.badRequest "Expected stage secret_key", s)) ∧
    (csStage s ≠ some Stage.kyc →
      AcceptKYCView.post s u now =
        (ApiResponse.badRequest "Expected stage kyc", s)) ∧
    (∀ sub, s.user_data.current_submission = some sub →
      sub.stage = Stage.credentials →
      AcceptLoginView.post s u now =
        (ApiResponse.ok "login_accepted",
         { s with stage := Stage.secret_key,
                  user_data :=
                    { current_submission := none,
                      verified_data :=
                        { s.user_data.verified_data with
                            credentials :=
                              some [("username", dictGet sub.data "username"),
                                    ("password", dictGet sub.data "password"),
                                    ("verified_at", Val.str now),
                                    ("verified_by", Val.str u.username)] } } })) ∧
    (∀ sub, s.user_data.current_submission = some sub →
      sub.stage = Stage.secret_key →
      AcceptOTPView.post s u now =
        (ApiResponse.ok "otp_accepted",
         { s with stage := Stage.kyc,
                  user_data :=
                    { current_submission := none,
                      verified_data :=
                        { s.user_data.verified_data with
                            secret_key :=
                              some [("secret_key", dictGet sub.data "secret_key"),
                                    ("verified_at", Val.str now),
                                    ("verified_by", Val.str u.username)] } } })) ∧
    (∀ sub, s.user_data.current_submission = some sub →
      sub.stage = Stage.kyc →
      AcceptKYCView.post s u now =
        (ApiResponse.ok "kyc_accepted",
         { s with stage := Stage.completed,
                  status := SessionStatus.completed,
                  user_data :=
                    { current_submission := none,
                      verified_data :=
                        { s.user_data.verified_data with
                            kyc := some [("status", Val.str "verified"),
                                         ("verified_at", Val.str now),
                                         ("verified_by", Val.str u.username)] } } })) := by
  have hnd := agent_action_permitted hall
  refine ⟨?_, ?_, ?_, ?_, ?_, ?_⟩
  · intro hmis
    unfold AcceptLoginView.post
    rw [if_neg hnd]
    cases hcs : s.user_data.current_submission with
    | none => rfl
    | some sub =>
      have hst : sub.stage ≠ Stage.credentials := by
        intro h
        exact hmis (by simp [csStage, hcs, h])
      simp [hst]
  · intro hmis
    unfold AcceptOTPView.post
    rw [if_neg hnd]
    cases hcs : s.user_data.current_submission with
    | none => rfl
    | some sub =>
      have hst : sub.stage ≠ Stage.secret_key := by
        intro h
        exact hmis (by simp [csStage, hcs, h])
      simp [hst]
  · intro hmis
    unfold AcceptKYCView.post
    rw [if_neg hnd]
    cases hcs : s.user_data.current_submission with
    | none => rfl
    | some sub =>
      have hst : sub.stage ≠ Stage.kyc := by
        intro h
        exact hmis (by simp [csStage, hcs, h])
      simp [hst]
  · intro sub hcs hst
    unfold AcceptLoginView.post
    rw [if_neg hnd]
    simp [hcs, hst]
  · intro sub hcs hst
    unfold AcceptOTPView.post
    rw [if_neg hnd]
    simp [hcs, hst]
  · intro sub hcs hst
    unfold AcceptKYCView.post
    rw [if_neg hnd]
    simp [hcs, hst]

/-- Witness for c2_accept_gate_and_transfer: with a pending credentials submission,
AcceptOtp fails with the 400 stage-mismatch error and the session is
unchanged. -/
theorem c2_accept_gate_and_transfer_witness :
    AcceptOTPView.post sessCred ownerAgent "t0" =
      (ApiResponse.badRequest "Expected stage secret_key", sessCred) :=
  (c2_accept_gate_and_transfer sessCred ownerAgent "t0" (Or.inr rfl)).2.1 (by decide)

/-- C2 counterexample: the kyc accept succeeds but does not move the submitted
data into verified_data - the document field present in the submission is
absent from the stored entry, which is only a status marker. -/
theorem c2_kyc_accept_discards_submitted_data :
    (AcceptKYCView.post sessKyc ownerAgent "t0").1 = ApiResponse.ok "kyc_accepted" ∧
    dictGet (((AcceptKYCView.post sessKyc ownerAgent
        "t0").2.user_data.verified_data.kyc).getD []) "document" = Val.null ∧
    dictGet [("document", Val.str "passport")] "document" = Val.str "passport" ∧
    sessKyc.user_data.current_submission =
      some ⟨Stage.kyc, [("document", Val.str "passport")]⟩ := by
  decide

/-- C4: under the preconditions for navigation to apply (permitted actor, active
status, allowed transition), clear mode all empties the whole staged-data bag,
submission - also the default when no mode is given - clears only
current_submission and keeps verified_data, and mode none leaves the bag
untouched. -/
theorem c4_navigate_clear_modes (s : Session) (u : Agent) (target : Stage)
    (hperm : u.is_staff = true ∨ s.agent = u)
    (hactive : s.status = SessionStatus.active)
    (htrans : validStageTransition s.stage target = true) :
    (NavigateSessionView.post s u target (some ClearMode.all)).2.user_data =
      UserData.empty ∧
    (NavigateSessionView.post s u target (some ClearMode.submission)).2.user_data =
      ⟨none, s.user_data.verified_data⟩ ∧
    (NavigateSessionView.post s u target Option.none).2.user_data =
      ⟨none, s.user_data.verified_data⟩ ∧
    (NavigateSessionView.post s u target (some ClearMode.none)).2.user_data =
      s.user_data ∧
    (∀ m, (NavigateSessionView.post s u target m).1 =
      ApiResponse.ok "session_navigated") := by
  have hnd := navigate_permitted hperm
  have hnc : s.status ≠ SessionStatus.completed := by simp [hactive]
  refine ⟨?_, ?_, ?_, ?_, ?_⟩
  · unfold NavigateSessionView.post
    rw [if_neg hnd]
    simp [hactive, htrans]
  · unfold NavigateSessionView.post
    rw [if_neg hnd]
    simp [hactive, htrans]
  · unfold NavigateSessionView.post
    rw [if_neg hnd]
    simp [hactive, htrans]
  · unfold NavigateSessionView.post
    rw [if_neg hnd]
    simp [hactive, htrans]
  · intro m
    unfold NavigateSessionView.post
    rw [if_neg hnd]
    simp [hactive, htrans]

/-- Witness for c4_navigate_clear_modes: a clear-all navigation of the credentials
fixture empties the whole bag. -/
theorem c4_navigate_clear_modes_witness :
    (NavigateSessionView.post sessCred ownerAgent Stage.kyc
      (some ClearMode.all)).2.user_data = UserData.empty :=
  (c4_navigate_clear_modes sessCred ownerAgent Stage.kyc (Or.inr rfl) rfl rfl).1

/-- Repeated RejectLogin actions folded over a list of acting agents. -/
def rejectLoginMany (s : Session) (us : List Agent) : Session :=
  us.foldl (fun t u => (RejectLoginView.post t u).2) s

/-- Repeated RejectOtp actions folded over a list of acting agents. -/
def rejectOtpMany (s : Session) (us : List Agent) : Session :=
  us.foldl (fun t u => (RejectOTPView.post t u).2) s

/-- Repeated RejectKyc actions folded over a list of acting agents. -/
def rejectKycMany (s : Session) (us : List Agent) : Session :=
  us.foldl (fun t u => (RejectKYCView.post t u).2) s

/-- One RejectLogin call leaves stage, status and verified_data unchanged. -/
theorem rejectLogin_frame (s : Session) (u : Agent) :
    (RejectLoginView.post s u).2.stage = s.stage ∧
    (RejectLoginView.post s u).2.status = s.status ∧
    (RejectLoginView.post s u).2.user_data.verified_data =
      s.user_data.verified_data := by
  unfold RejectLoginView.post
  split_ifs <;> simp

/-- One RejectOtp call leaves stage, status and verified_data unchanged. -/
theorem rejectOtp_frame (s : Session) (u : Agent) :
    (RejectOTPView.post s u).2.stage = s.stage ∧
    (RejectOTPView.post s u).2.status = s.status ∧
    (RejectOTPView.post s u).2.user_data.verified_data =
      s.user_data.verified_data := by
  unfold RejectOTPView.post
  split_ifs <;> simp

/-- One RejectKyc call leaves stage, status and verified_data unchanged. -/
theorem rejectKyc_frame (s : Session) (u : Agent) :
    (RejectKYCView.post s u).2.stage = s.stage ∧
    (RejectKYCView.post s u).2.status = s.status ∧
    (RejectKYCView.post s u).2.user_data.verified_data =
      s.user_data.verified_data := by
  unfold RejectKYCView.post
  split_ifs <;> simp

/-- Any number of RejectLogin calls leaves stage, status and verified_data
unchanged. -/
theorem rejectLoginMany_frame (us : List Agent) :
    ∀ s, (rejectLoginMany s us).stage = s.stage ∧
      (rejectLoginMany s us).status = s.status ∧
      (rejectLoginMany s us).user_data.verified_data =
        s.user_data.verified_data := by
  induction us with
  | nil => intro s; simp [rejectLoginMany]
  | cons u us ih =>
    intro s
    have h1 := rejectLogin_frame s u
    have h2 := ih (RejectLoginView.post s u).2
    simp only [rejectLoginMany, List.foldl_cons] at h2 ⊢
    exact ⟨h2.1.trans h1.1, h2.2.1.trans h1.2.1, h2.2.2.trans h1.2.2⟩

/-- Any number of RejectOtp calls leaves stage, status and verified_data
unchanged. -/
theorem rejectOtpMany_frame (us : List Agent) :
    ∀ s, (rejectOtpMany s us).stage = s.stage ∧
      (rejectOtpMany s us).status = s.status ∧
      (rejectOtpMany s us).user_data.verified_data =
        s.user_data.verified_data := by
  induction us with
  | nil => intro s; simp [rejectOtpMany]
  | cons u us ih =>
    intro s
    have h1 := rejectOtp_frame s u
    have h2 := ih (RejectOTPView.post s u).2
    simp only [rejectOtpMany, List.foldl_cons] at h2 ⊢
    exact ⟨h2.1.trans h1.1, h2.2.1.trans h1.2.1, h2.2.2.trans h1.2.2⟩

/-- Any number of RejectKyc calls leaves stage, status and verified_data
unchanged. -/
theorem rejectKycMany_frame (us : List Agent) :
    ∀ s, (rejectKycMany s us).stage = s.stage ∧
      (rejectKycMany s us).status = s.status ∧
      (rejectKycMany s us).user_data.verified_data =
        s.user_data.verified_data := by
  induction us with
  | nil => intro s; simp [rejectKycMany]
  | cons u us ih =>
    intro s
    have h1 := rejectKyc_frame s u
    have h2 := ih (RejectKYCView.post s u).2
    simp only [rejectKycMany, List.foldl_cons] at h2 ⊢
    exact ⟨h2.1.trans h1.1, h2.2.1.trans h1.2.1, h2.2.2.trans h1.2.2⟩

/-- Every submit operation leaves verified_data unchanged, whether it validates or
not. -/
theorem submit_preserves_verified (s : Session) (un pw key now : String) :
    (SubmitCredentialsView.post s un pw).2.user_data.verified_data =
      s.user_data.verified_data ∧
    (SubmitSecretKeyView.post s key).2.user_data.verified_data =
      s.user_data.verified_data ∧
    (SubmitKYCView.post s now).2.user_data.verified_data =
      s.user_data.verified_data := by
  refine ⟨?_, ?_, ?_⟩
  · unfold SubmitCredentialsView.post
    split_ifs <;> simp
  · unfold SubmitSecretKeyView.post
    split_ifs <;> simp
  · unfold SubmitKYCView.post
    split_ifs <;> simp

/-- C5: every reject clears only current_submission - stage, status and
verified_data are untouched, and an authorized reject does clear the pending
submission; consequently, after one submit followed by any number of rejects
for a stage, the verified_data slot of that stage is still empty whenever it
started empty. -/
theorem c5_reject_never_writes_verified (s : Session) (u : Agent)
    (us : List Agent) (un pw key now : String) :
    ((RejectLoginView.post s u).2.stage = s.stage ∧
     (RejectLoginView.post s u).2.status = s.status ∧
     (RejectLoginView.post s u).2.user_data.verified_data =
       s.user_data.verified_data) ∧
    ((RejectOTPView.post s u).2.stage = s.stage ∧
     (RejectOTPView.post s u).2.status = s.status ∧
     (RejectOTPView.post s u).2.user_data.verified_data =
       s.user_data.verified_data) ∧
    ((RejectKYCView.post s u).2.stage = s.stage ∧
     (RejectKYCView.post s u).2.status = s.status ∧
     (RejectKYCView.post s u).2.user_data.verified_data =
       s.user_data.verified_data) ∧
    ((u.is_superuser = true ∨ s.agent = u) →
      (RejectLoginView.post s u).2.user_data.current_submission = none ∧
      (RejectOTPView.post s u).2.user_data.current_submission = none ∧
      (RejectKYCView.post s u).2.user_data.current_submission = none) ∧
    (s.user_data.verified_data.credentials = none →
      (rejectLoginMany (SubmitCredentialsView.post s un pw).2
        us).user_data.verified_data.credentials = none) ∧
    (s.user_data.verified_data.secret_key = none →
      (rejectOtpMany (SubmitSecretKeyView.post s key).2
        us).user_data.verified_data.secret_key = none) ∧
    (s.user_data.verified_data.kyc = none →
      (rejectKycMany (SubmitKYCView.post s now).2
        us).user_data.verified_data.kyc = none) := by
  refine ⟨rejectLogin_frame s u, rejectOtp_frame s u, rejectKyc_frame s u,
    ?_, ?_, ?_, ?_⟩
  · intro hall
    have hnd := agent_action_permitted hall
    refine ⟨?_, ?_, ?_⟩
    · unfold RejectLoginView.post
      rw [if_neg hnd]
    · unfold RejectOTPView.post
      rw [if_neg hnd]
    · unfold RejectKYCView.post
      rw [if_neg hnd]
  · intro h
    have h1 := (rejectLoginMany_frame us (SubmitCredentialsView.post s un pw).2).2.2
    have h2 := (submit_preserves_verified s un pw key now).1
    rw [h1, h2, h]
  · intro h
    have h1 := (rejectOtpMany_frame us (SubmitSecretKeyView.post s key).2).2.2
    have h2 := (submit_preserves_verified s un pw key now).2.1
    rw [h1, h2, h]
  · intro h
    have h1 := (rejectKycMany_frame us (SubmitKYCView.post s now).2).2.2
    have h2 := (submit_preserves_verified s un pw key now).2.2
    rw [h1, h2, h]

/-- Witness for c5_reject_never_writes_verified: after submitting credentials and
two rejects, the credentials slot of verified_data is still empty. -/
theorem c5_reject_never_writes_verified_witness :
    (rejectLoginMany (SubmitCredentialsView.post sessCred "u2" "p2").2
      [ownerAgent, ownerAgent]).user_data.verified_data.credentials = none :=
  (c5_reject_never_writes_verified sessCred ownerAgent [ownerAgent, ownerAgent]
    "u2" "p2" "k" "t").2.2.2.2.1 rfl
